import Mathlib

/-!
Verification of the fname-update repository: a shallow embedding of its
core functions (directory client, signature generator, rename orchestrator,
submission endpoint) together with theorems settling the frozen claims.

Network calls and the external signing capability are modelled as explicit
environment values passed to the embedded functions; each embedded function
additionally returns a trace of the externally visible actions it performed,
so that claims about "no request is made after a failure" become statements
about the trace.
-/

namespace FnameUpdate

/-- A transfer record as returned by the fname directory
(src/src/lib/farcasterUtils.ts, type FnameTransfer). The JS fields
`from` and `to` are called `fromId` and `toId` here because `from` is a
Lean keyword. -/
structure FnameTransfer where
  id : Nat
  timestamp : Int
  username : String
  owner : String
  fromId : Int
  toId : Int
  deriving Repr, DecidableEq

/-- Whether an HTTP status makes `Response.ok` true in the fetch API:
status in the range 200 to 299. -/
def respOk (status : Nat) : Bool :=
  200 ≤ status && status ≤ 299

/-! ## Timestamp computation (claim C2)

`executeFnameRename` (farcasterUtils.ts lines 181 and 195) computes
`deleteTimestamp = Math.floor(Date.now() / 1000)` and
`registerTimestamp = Math.max(deleteTimestamp + 1, Math.floor(Date.now() / 1000))`.
`Math.floor` of a division is floor division, so it is modelled with
`Int.fdiv`; the clock readings are left universally quantified. -/

/-- Model of `Math.floor(Date.now() / 1000)` at clock reading `now1`. -/
def deleteTimestampOf (now1 : Int) : Int :=
  Int.fdiv now1 1000

/-- Model of `Math.max(deleteTimestamp + 1, Math.floor(Date.now() / 1000))`
(farcasterUtils.ts line 195) at clock reading `now2`. -/
def registerTimestampOf (d now2 : Int) : Int :=
  max (d + 1) (Int.fdiv now2 1000)

/-- Model of the variant in `handleActualRename` (FnameRenameForm code,
lines 101-106): after computing `registerTimestamp` the code additionally
checks for equality with `deleteTimestamp` and, when equal, waits and
recomputes the current time (clock reading `now3`). -/
def finalRegisterTimestamp (d pre now3 : Int) : Int :=
  let r1 := registerTimestampOf d pre
  if r1 = d then Int.fdiv now3 1000 else r1

/-! ## Handle validation (claim C7)

The regex `^[a-z0-9][a-z0-9-]{0,15}$` (isValidFname in the confirmation
dialog, validateNewFname in the form, and the newFname rule of the
endpoint schema) is modelled character by character, and the JS
`startsWith('-')` / `endsWith('-')` checks as first/last character tests. -/

/-- A character matched by the JS character class `[a-z0-9]`. -/
def isLowerAlnum (c : Char) : Bool :=
  (decide ( 'a' ≤ c) && decide (c ≤ 'z')) || (decide ( '0' ≤ c) && decide (c ≤ '9'))

/-- A character matched by the JS character class `[a-z0-9-]`. -/
def isFnameChar (c : Char) : Bool :=
  isLowerAlnum c || c == '-'

/-- Model of the JS regex test `/^[a-z0-9][a-z0-9-]{0,15}$/.test(s)`:
the first character is in `[a-z0-9]` and it is followed by at most 15
characters in `[a-z0-9-]`. -/
def fnameRegexMatch (s : String) : Bool :=
  match s.toList with
  | [] => false
  | c :: rest => isLowerAlnum c && rest.length ≤ 15 && rest.all isFnameChar

/-- Model of JS `s.startsWith(t)` for a one-character `t`: the first
character equals it. -/
def startsWithDash (s : String) : Bool :=
  match s.toList with
  | [] => false
  | c :: _ => c == '-'

/-- Model of JS `s.endsWith(t)` for a one-character `t`: the last
character equals it. -/
def endsWithDash (s : String) : Bool :=
  match s.toList.getLast? with
  | some c => c == '-'
  | none => false

/-- Model of `isValidFname` (confirmation dialog component, lines 140-143):
`fnameRegex.test(fname) && !fname.startsWith('-') && !fname.endsWith('-')`.
The format check of `validateNewFname` in the rename form (lines 55-56)
is the same boolean expression. -/
def isValidFname (fname : String) : Bool :=
  fnameRegexMatch fname && !(startsWithDash fname) && !(endsWithDash fname)

/-- The validity predicate as worded by the spec (section 8): valid iff
the length is between 1 and 16, every character lies in `[a-z0-9-]`, and
the first and last characters are not the hyphen. Written separately from
`isValidFname` so that the two can be compared. -/
def specValidFname (s : String) : Bool :=
  1 ≤ s.toList.length && s.toList.length ≤ 16 && s.toList.all isFnameChar &&
  !(startsWithDash s) && !(endsWithDash s)

/-! ## Directory lookups (claims C3, C4, C10)

The two GET endpoints of the directory are modelled by environment values:
a response status plus the decoded body. A boolean in the result records
whether a network request was performed at all. -/

/-- Stable insertion of a record into a list already sorted descending by
timestamp: the record goes after every earlier record with a strictly
greater or equal timestamp would be wrong for stability, so it goes after
records with a strictly greater timestamp and also after equal ones that
preceded it in the original order, which the recursion below realises. -/
def insertDesc (t : FnameTransfer) : List FnameTransfer → List FnameTransfer
  | [] => [t]
  | h :: rest => if t.timestamp < h.timestamp then h :: insertDesc t rest else t :: h :: rest

/-- Model of `transfers.sort((a, b) => b.timestamp - a.timestamp)`: a
stable sort placing larger timestamps first, as the ECMAScript
specification guarantees for `Array.prototype.sort`. -/
def sortByTimestampDesc : List FnameTransfer → List FnameTransfer
  | [] => []
  | h :: rest => insertDesc h (sortByTimestampDesc rest)

/-- Environment for one `GET /transfers?fid=...` round trip: the HTTP
status and the decoded `transfers` array of the body. -/
structure FidQueryEnv where
  status : Nat
  transfers : List FnameTransfer
  deriving Repr

/-- Model of `getCurrentFnameFromFid` (farcasterUtils.ts lines 29-77).
The second component records whether the fetch was performed. A thrown
error is an `Except.error` carrying the message. -/
def getCurrentFnameFromFid (fid : Int) (env : FidQueryEnv) :
    Except String (Option String) × Bool :=
  if fid ≤ 0 then (Except.ok none, false)
  else
    let r : Except String (Option String) :=
      if !(respOk env.status) then
        if env.status = 404 then Except.ok none
        else Except.error ("Failed to fetch transfers for FID " ++ toString fid ++
          " (status " ++ toString env.status ++ ")")
      else if env.transfers.isEmpty then Except.ok none
      else
        let sorted := sortByTimestampDesc env.transfers
        match sorted with
        | [] => Except.ok none
        | latest :: _ =>
          if latest.fromId = fid && latest.toId = 0 then Except.ok none
          else
            match sorted.find? (fun t => t.toId == fid) with
            | some t => Except.ok (some t.username)
            | none => Except.ok none
    (r, true)

/-- The derivation as worded by the spec (section 4.1, lookupByIdentifier):
empty list gives none; after sorting descending by timestamp, a most-recent
record with `from == id` and `to == 0` gives none; otherwise the handle of
the most-recent record with `to == id`, or none when there is no such
record. Written separately so the code model can be compared with it. -/
def lookupByIdentifierSpec (fid : Int) (transfers : List FnameTransfer) : Option String :=
  if transfers.isEmpty then none
  else
    let sorted := sortByTimestampDesc transfers
    match sorted with
    | [] => none
    | latest :: _ =>
      if latest.fromId = fid && latest.toId = 0 then none
      else
        match sorted.find? (fun t => t.toId == fid) with
        | some t => some t.username
        | none => none

/-- Environment for one `GET /transfers?name=...` round trip: the HTTP
status and, when the decoded body had a `transfer` key, that record. -/
structure NameLookupResponse where
  status : Nat
  transfer : Option FnameTransfer
  deriving Repr

/-- JS `s.toLowerCase()` on the ASCII strings this program handles,
written character by character so the kernel can evaluate it. -/
def strToLower (s : String) : String :=
  String.mk (s.toList.map Char.toLower)

/-- Model of `isUsernameTaken` (farcasterUtils.ts lines 79-94). The
environment is a function from the queried name to the response, so the
model exhibits that the query uses the lowercased handle. The JS
expression `'transfer' in data && data.transfer.to !== 0` becomes a match
on the optional record. -/
def isUsernameTaken (username : String) (env : String → NameLookupResponse) :
    Except String Bool :=
  let resp := env (strToLower username)
  if resp.status = 404 then Except.ok false
  else if !(respOk resp.status) then
    Except.error ("Failed to check username availability (status " ++
      toString resp.status ++ ")")
  else
    Except.ok (match resp.transfer with
      | some t => t.toId != 0
      | none => false)

/-! ## Signature generation (claim C8)

`generateSignature` (farcasterUtils.ts lines 96-156) either receives an
error Result from `signUserNameProofClaim`, or the signing call throws.
Crucially, the `throw` it performs itself after an error Result sits
inside the same `try` block, so its own `catch` handler rewraps that
message. The outcome of the signing call is an environment value. -/

/-- An error code carried by a thrown signing error (`error.code`). -/
inductive ErrCode where
  | num (n : Int)
  | str (s : String)
  deriving Repr, DecidableEq

/-- Outcome of the `signUserNameProofClaim` call: a success value, an
error Result (with its message), or a thrown exception with the message
of the `Error` instance, if it was one, and an optional `code` field. -/
inductive SignOutcome where
  | ok (signatureHex : String)
  | errResult (msg : String)
  | threw (msg : Option String) (code : Option ErrCode)
  deriving Repr

/-- JS `s.includes(t)`: `t` occurs as a contiguous substring of `s`. -/
def strIncludes (s t : String) : Bool :=
  decide (t.toList <:+: s.toList)

/-- The catch handler of `generateSignature` (lines 136-155): starts from
the generic message, takes the detail from the Error message when there is
one, switches to the rejection message and clears the detail when the
code is 4001 or ACTION_REJECTED, and joins message and detail with a colon
when the detail is nonempty. -/
def catchHandlerMessage (msg : Option String) (code : Option ErrCode) : String :=
  let errorMessage := "Failed to sign the message."
  let detail := match msg with
    | some m => m
    | none => ""
  let pair :=
    match code with
    | some c =>
      if c = ErrCode.num 4001 || c = ErrCode.str "ACTION_REJECTED" then
        ("Signature request rejected by user.", "")
      else (errorMessage, detail)
    | none => (errorMessage, detail)
  if pair.2 ≠ "" then pair.1 ++ ": " ++ pair.2 else pair.1

/-- Model of `generateSignature` (farcasterUtils.ts lines 96-156). The
wallet client is an optional opaque value; the signing call outcome is the
environment. Returns the signature hex with the unchanged timestamp, or
the message of the thrown error. -/
def generateSignature (walletClient : Option Unit) (outcome : SignOutcome)
    (timestamp : Int) : Except String (String × Int) :=
  match walletClient with
  | none => Except.error "Wallet client not provided."
  | some _ =>
    match outcome with
    | SignOutcome.ok sig => Except.ok (sig, timestamp)
    | SignOutcome.errResult msg =>
      let errorMessage :=
        if strIncludes msg "rejected" || strIncludes msg "4001" then
          "Signature request rejected by user."
        else "Failed to sign the message."
      Except.error (catchHandlerMessage (some (errorMessage ++ ": " ++ msg)) none)
    | SignOutcome.threw msg code =>
      Except.error (catchHandlerMessage msg code)

/-! ## Rename orchestrator (claims C1, C6)

`executeFnameRename` (farcasterUtils.ts lines 167-278) performs, in order:
availability check, release signature, claim signature, release
submission, claim submission. Every externally visible step is recorded
in a trace; its environment fixes the outcome of each step. -/

/-- Response of one `POST /transfers` submission: the HTTP status, and the
human-readable message the code manages to extract from the JSON body
(`errorJson.message || errorJson.error`), none when parsing fails or the
extracted value is falsy. -/
structure DirResponse where
  status : Nat
  parsedMsg : Option String
  deriving Repr

/-- The error detail used by `executeFnameRename` on a failed submission:
the parsed body message, or `API returned status N.` as fallback. -/
def errorDetail (r : DirResponse) : String :=
  match r.parsedMsg with
  | some m => m
  | none => "API returned status " ++ toString r.status ++ "."

/-- Externally visible actions of the orchestrator, in order of
occurrence: the availability query, the two signature prompts, and the
two directory submissions. -/
inductive RenameAction where
  | checkAvailability
  | signRelease
  | signClaim
  | submitRelease
  | submitClaim
  deriving Repr, DecidableEq

/-- Environment of one `executeFnameRename` run: the outcome of the
availability check (it can itself throw), of the two signature
generations, and the two submission responses. -/
structure RenameEnv where
  takenResult : Except String Bool
  deleteSigResult : Except String String
  registerSigResult : Except String String
  deleteResp : DirResponse
  registerResp : DirResponse
  deriving Repr

/-- Model of `executeFnameRename` (farcasterUtils.ts lines 167-278):
the thrown error or final `true`, together with the trace of performed
actions. The wrapper messages are exactly those of the source. -/
def executeFnameRename (currentFname newFname : String) (env : RenameEnv) :
    Except String Bool × List RenameAction :=
  match env.takenResult with
  | Except.error e => (Except.error e, [RenameAction.checkAvailability])
  | Except.ok true =>
    (Except.error ("Username \"" ++ newFname ++ "\" is already taken."),
     [RenameAction.checkAvailability])
  | Except.ok false =>
    match env.deleteSigResult with
    | Except.error e =>
      (Except.error ("Failed to get release signature for " ++ currentFname ++ ": " ++ e),
       [RenameAction.checkAvailability, RenameAction.signRelease])
    | Except.ok _ =>
      match env.registerSigResult with
      | Except.error e =>
        (Except.error ("Failed to get claim signature for " ++ newFname ++ ": " ++ e),
         [RenameAction.checkAvailability, RenameAction.signRelease, RenameAction.signClaim])
      | Except.ok _ =>
        if !(respOk env.deleteResp.status) then
          (Except.error ("Failed to release username: " ++ errorDetail env.deleteResp),
           [RenameAction.checkAvailability, RenameAction.signRelease,
            RenameAction.signClaim, RenameAction.submitRelease])
        else if !(respOk env.registerResp.status) then
          (Except.error ("Released " ++ currentFname ++ ", but failed to claim " ++
             newFname ++ ": " ++ errorDetail env.registerResp),
           [RenameAction.checkAvailability, RenameAction.signRelease,
            RenameAction.signClaim, RenameAction.submitRelease, RenameAction.submitClaim])
        else
          (Except.ok true,
           [RenameAction.checkAvailability, RenameAction.signRelease,
            RenameAction.signClaim, RenameAction.submitRelease, RenameAction.submitClaim])

/-! ## Submission endpoint (claims C1, C5, C9)

`POST /api/rename` validates the body against `renameRequestSchema` and
then re-executes the two submissions. The viem `isAddress` check needs a
keccak-based checksum computation for mixed-case inputs; that computation
is an external library and is passed in as the `checksumOk` parameter,
which lowercase inputs never consult. -/

/-- Hexadecimal digit of either case, the body of the viem address
regex `^0x[a-fA-F0-9]{40}$`. -/
def isHexDigit (c : Char) : Bool :=
  (decide ( '0' ≤ c) && decide (c ≤ '9')) ||
  (decide ( 'a' ≤ c) && decide (c ≤ 'f')) ||
  (decide ( 'A' ≤ c) && decide (c ≤ 'F'))

/-- The viem address regex `^0x[a-fA-F0-9]{40}$`. -/
def addrRegexMatch (s : String) : Bool :=
  match s.toList with
  | '0' :: 'x' :: rest => rest.length == 40 && rest.all isHexDigit
  | _ => false

/-- Model of viem `isAddress` in its default strict form: the regex must
match; an all-lowercase address then passes, and a mixed-case one passes
exactly when its EIP-55 checksum is intact, which `checksumOk` decides. -/
def isAddress (checksumOk : String → Bool) (s : String) : Bool :=
  if !(addrRegexMatch s) then false
  else if strToLower s == s then true
  else checksumOk s

/-- The decoded request body of `POST /api/rename`. Signatures carry no
schema check (`z.custom<Hex>()` without a validator), so their values
never produce issues. -/
structure RenameRequest where
  currentFname : String
  newFname : String
  fid : Int
  owner : String
  deleteSignature : String
  deleteTimestamp : Int
  registerSignature : String
  registerTimestamp : Int
  deriving Repr

/-- The issues the schema reports for the `newFname` field: the string
checks `min(1)` and `regex` run first, the hyphen refinement afterwards.
Zod runs a refinement whenever the inner parse was not aborted, so a
string that already failed `min` or `regex` still reaches it. -/
def newFnameIssues (s : String) : List (String × String) :=
  (if s.toList.length < 1 then
    [("newFname", "New fname is required.")] else []) ++
  (if !(fnameRegexMatch s) then
    [("newFname", "Invalid new fname format.")] else []) ++
  (if startsWithDash s || endsWithDash s then
    [("newFname", "New fname cannot start or end with a hyphen.")] else [])

/-- Model of `renameRequestSchema.safeParse` (route source lines 437-448):
the list of `(path, message)` issues in the order Zod reports them,
walking the shape keys in declaration order. An empty list means
validation succeeded. -/
def validateRenameRequest (checksumOk : String → Bool) (r : RenameRequest) :
    List (String × String) :=
  (if r.currentFname.toList.length < 1 then
    [("currentFname", "Current fname is required.")] else []) ++
  newFnameIssues r.newFname ++
  (if !(0 < r.fid) then [("fid", "Valid FID is required.")] else []) ++
  (if !(isAddress checksumOk r.owner) then
    [("owner", "Valid owner address is required.")] else []) ++
  (if !(0 < r.deleteTimestamp) then
    [("deleteTimestamp", "Valid delete timestamp is required.")] else []) ++
  (if !(0 < r.registerTimestamp) then
    [("registerTimestamp", "Valid register timestamp is required.")] else [])

/-- The endpoint combines the issues as
`errors.map(e => path + ': ' + message).join(', ')`. -/
def formatIssues (issues : List (String × String)) : String :=
  String.intercalate ", " (issues.map (fun i => i.1 ++ ": " ++ i.2))

/-- The error detail used by the endpoint on a failed submission, whose
fallback wording differs from the orchestrator one. -/
def apiErrorDetail (r : DirResponse) : String :=
  match r.parsedMsg with
  | some m => m
  | none => "Farcaster API returned status " ++ toString r.status ++ "."

/-- Result of a `POST /api/rename` call: a 400 validation rejection, a
500 failure, or a 200 success. -/
inductive ApiResult where
  | badRequest (error : String)
  | serverError (error : String)
  | success (message : String)
  deriving Repr, DecidableEq

/-- The HTTP status of each `ApiResult` case. -/
def apiStatus : ApiResult → Nat
  | ApiResult.badRequest _ => 400
  | ApiResult.serverError _ => 500
  | ApiResult.success _ => 200

/-- The directory submissions the endpoint performs, in order. -/
inductive EndpointAction where
  | submitDelete
  | submitRegister
  deriving Repr, DecidableEq

/-- Environment of one endpoint run: the two submission responses. -/
structure EndpointEnv where
  deleteResp : DirResponse
  registerResp : DirResponse
  deriving Repr

/-- Model of the `POST` handler of `/api/rename` (route source lines
453-577) on a JSON-decodable body: validate, then submit the deletion,
then the registration, with the source wrapper messages; the trace lists
the directory submissions performed. -/
def postRename (checksumOk : String → Bool) (r : RenameRequest) (env : EndpointEnv) :
    ApiResult × List EndpointAction :=
  let issues := validateRenameRequest checksumOk r
  if !issues.isEmpty then
    (ApiResult.badRequest ("Invalid input: " ++ formatIssues issues), [])
  else if !(respOk env.deleteResp.status) then
    (ApiResult.serverError ("Failed to delete username: " ++ apiErrorDetail env.deleteResp),
     [EndpointAction.submitDelete])
  else if !(respOk env.registerResp.status) then
    (ApiResult.serverError ("Deleted " ++ r.currentFname ++ ", but failed to register " ++
       r.newFname ++ ": " ++ apiErrorDetail env.registerResp),
     [EndpointAction.submitDelete, EndpointAction.submitRegister])
  else
    (ApiResult.success ("Successfully renamed " ++ r.currentFname ++ " to " ++
       r.newFname ++ "."),
     [EndpointAction.submitDelete, EndpointAction.submitRegister])

/-! ## Theorems settling the claims -/

/-- C2: for every rename attempt reaching the claim-signing step, the
computed register timestamp is strictly greater than the delete timestamp:
with `deleteTimestamp = floor(now1/1000)` and
`registerTimestamp = max(deleteTimestamp + 1, floor(now2/1000))` the strict
inequality holds for all integer clock readings, and in the form variant
that additionally compares the two and recomputes the time on equality,
the final register timestamp is still strictly greater. -/
theorem register_timestamp_strictly_greater (now1 now2 d pre now3 : Int) :
    deleteTimestampOf now1 < registerTimestampOf (deleteTimestampOf now1) now2 ∧
    d < finalRegisterTimestamp d pre now3 := by
  constructor
  · have h := le_max_left (deleteTimestampOf now1 + 1) (Int.fdiv now2 1000)
    calc deleteTimestampOf now1 < deleteTimestampOf now1 + 1 := by omega
      _ ≤ registerTimestampOf (deleteTimestampOf now1) now2 := h
  · have h := le_max_left (d + 1) (Int.fdiv pre 1000)
    have hne : registerTimestampOf d pre ≠ d := by
      unfold registerTimestampOf
      omega
    unfold finalRegisterTimestamp
    rw [if_neg hne]
    unfold registerTimestampOf
    omega

/-- C10: for every nonpositive fid, `getCurrentFnameFromFid` returns null
immediately, performing no network request and throwing nothing. -/
theorem nonpositive_fid_returns_null (fid : Int) (env : FidQueryEnv)
    (h : fid ≤ 0) :
    getCurrentFnameFromFid fid env = (Except.ok none, false) := by
  unfold getCurrentFnameFromFid
  rw [if_pos h]

/-- Witness for C10 at fid = 0. -/
theorem nonpositive_fid_returns_null_witness :
    (0 : Int) ≤ 0 ∧
    getCurrentFnameFromFid 0 ⟨200, []⟩ = (Except.ok none, false) :=
  ⟨by decide, nonpositive_fid_returns_null 0 ⟨200, []⟩ (by decide)⟩

/-- C1: whenever the release submission succeeded and the claim submission
then fails with a non-2xx status, `executeFnameRename` throws the message
`Released <old>, but failed to claim <new>: <detail>` and the endpoint
returns HTTP 500 with the message
`Deleted <old>, but failed to register <new>: <detail>`; neither surfaces
a generic error instead. -/
theorem partial_failure_is_disclosed
    (cur new : String) (env : RenameEnv) (checksumOk : String → Bool)
    (r : RenameRequest) (eenv : EndpointEnv)
    (hT : env.takenResult = Except.ok false)
    (hD : ∃ s, env.deleteSigResult = Except.ok s)
    (hR : ∃ s, env.registerSigResult = Except.ok s)
    (hDel : respOk env.deleteResp.status = true)
    (hReg : respOk env.registerResp.status = false)
    (hV : validateRenameRequest checksumOk r = [])
    (hDel2 : respOk eenv.deleteResp.status = true)
    (hReg2 : respOk eenv.registerResp.status = false) :
    (executeFnameRename cur new env).1 =
      Except.error ("Released " ++ cur ++ ", but failed to claim " ++ new ++
        ": " ++ errorDetail env.registerResp) ∧
    (postRename checksumOk r eenv).1 =
      ApiResult.serverError ("Deleted " ++ r.currentFname ++
        ", but failed to register " ++ r.newFname ++ ": " ++
        apiErrorDetail eenv.registerResp) ∧
    apiStatus (postRename checksumOk r eenv).1 = 500 := by
  obtain ⟨ds, hDs⟩ := hD
  obtain ⟨rs, hRs⟩ := hR
  have h1 : (executeFnameRename cur new env).1 =
      Except.error ("Released " ++ cur ++ ", but failed to claim " ++ new ++
        ": " ++ errorDetail env.registerResp) := by
    unfold executeFnameRename
    rw [hT, hDs, hRs]
    simp [hDel, hReg]
  have h2 : (postRename checksumOk r eenv).1 =
      ApiResult.serverError ("Deleted " ++ r.currentFname ++
        ", but failed to register " ++ r.newFname ++ ": " ++
        apiErrorDetail eenv.registerResp) := by
    unfold postRename
    simp [hV, hDel2, hReg2]
  exact ⟨h1, h2, by rw [h2]; rfl⟩

/-- Witness for C1: the release succeeds (200) and the claim fails (500)
both in the orchestrator and at the endpoint, for a request that passes
validation. -/
theorem partial_failure_is_disclosed_witness :
    (let env : RenameEnv :=
      ⟨Except.ok false, Except.ok "0xsig1", Except.ok "0xsig2",
        ⟨200, none⟩, ⟨500, some "boom"⟩⟩
     let r : RenameRequest :=
      ⟨"alice", "alice2", 7, "0xaaaaaaaaaaaaaaaaaaaaaaaaaaaaaaaaaaaaaaaa",
        "0xs", 100, "0xr", 101⟩
     let eenv : EndpointEnv := ⟨⟨200, none⟩, ⟨500, some "boom"⟩⟩
     (executeFnameRename "alice" "alice2" env).1 =
       Except.error "Released alice, but failed to claim alice2: boom" ∧
     (postRename (fun _ => false) r eenv).1 =
       ApiResult.serverError "Deleted alice, but failed to register alice2: boom" ∧
     apiStatus (postRename (fun _ => false) r eenv).1 = 500) := by
  have h := partial_failure_is_disclosed "alice" "alice2"
    ⟨Except.ok false, Except.ok "0xsig1", Except.ok "0xsig2",
      ⟨200, none⟩, ⟨500, some "boom"⟩⟩
    (fun _ => false)
    ⟨"alice", "alice2", 7, "0xaaaaaaaaaaaaaaaaaaaaaaaaaaaaaaaaaaaaaaaa",
      "0xs", 100, "0xr", 101⟩
    ⟨⟨200, none⟩, ⟨500, some "boom"⟩⟩
    rfl ⟨"0xsig1", rfl⟩ ⟨"0xsig2", rfl⟩ rfl rfl (by decide) rfl rfl
  exact h

/-- C6: in `executeFnameRename`, a failure at any stage aborts all
remaining stages: a positive availability check leaves the trace at the
availability query alone (no signature, no submission); a throwing
signature generation (either one) leaves both submissions unattempted;
and a failed release submission leaves the claim submission unattempted. -/
theorem stage_failure_aborts_remaining_stages
    (cur new : String) (env : RenameEnv) :
    (env.takenResult = Except.ok true →
      (executeFnameRename cur new env).2 = [RenameAction.checkAvailability]) ∧
    (∀ e, env.deleteSigResult = Except.error e →
      RenameAction.submitRelease ∉ (executeFnameRename cur new env).2 ∧
      RenameAction.submitClaim ∉ (executeFnameRename cur new env).2) ∧
    (∀ e, env.registerSigResult = Except.error e →
      RenameAction.submitRelease ∉ (executeFnameRename cur new env).2 ∧
      RenameAction.submitClaim ∉ (executeFnameRename cur new env).2) ∧
    (respOk env.deleteResp.status = false →
      RenameAction.submitClaim ∉ (executeFnameRename cur new env).2) := by
  obtain ⟨tr, dsr, rsr, dr, rr⟩ := env
  refine ⟨?_, ?_, ?_, ?_⟩
  · intro h
    simp only at h
    rw [h]
    rfl
  · intro e he
    simp only at he
    subst he
    rcases tr with e' | _ | _ <;>
      constructor <;> simp [executeFnameRename]
  · intro e he
    simp only at he
    subst he
    rcases tr with e' | _ | _
    · constructor <;> simp [executeFnameRename]
    · rcases dsr with e'' | s <;> constructor <;> simp [executeFnameRename]
    · constructor <;> simp [executeFnameRename]
  · intro h
    simp only at h
    rcases tr with e' | _ | _
    · simp [executeFnameRename]
    · rcases dsr with e'' | s
      · simp [executeFnameRename]
      · rcases rsr with e'' | s'
        · simp [executeFnameRename]
        · simp [executeFnameRename, h]
    · simp [executeFnameRename]

/-- Witness for C6: a taken name leaves only the availability query in
the trace, and a failed release submission leaves the claim submission
unattempted. -/
theorem stage_failure_aborts_remaining_stages_witness :
    (executeFnameRename "alice" "bob"
      ⟨Except.ok true, Except.ok "s", Except.ok "t", ⟨200, none⟩, ⟨200, none⟩⟩).2 =
      [RenameAction.checkAvailability] ∧
    RenameAction.submitClaim ∉
      (executeFnameRename "alice" "bob"
        ⟨Except.ok false, Except.ok "s", Except.ok "t", ⟨500, none⟩, ⟨200, none⟩⟩).2 :=
  ⟨(stage_failure_aborts_remaining_stages "alice" "bob"
      ⟨Except.ok true, Except.ok "s", Except.ok "t", ⟨200, none⟩, ⟨200, none⟩⟩).1 rfl,
   (stage_failure_aborts_remaining_stages "alice" "bob"
      ⟨Except.ok false, Except.ok "s", Except.ok "t", ⟨500, none⟩, ⟨200, none⟩⟩).2.2.2
      (by decide)⟩

/-- C9: the submission endpoint does not enforce the strict ordering
between release and claim timestamps: there is a request with
`registerTimestamp ≤ deleteTimestamp`, both positive and all other fields
well-formed, that passes schema validation, and on it the endpoint
proceeds to submit both transfers once the directory accepts them. -/
theorem endpoint_allows_unordered_timestamps (checksumOk : String → Bool) :
    ∃ r : RenameRequest,
      r.registerTimestamp ≤ r.deleteTimestamp ∧
      0 < r.deleteTimestamp ∧ 0 < r.registerTimestamp ∧
      validateRenameRequest checksumOk r = [] ∧
      (postRename checksumOk r ⟨⟨200, none⟩, ⟨200, none⟩⟩).2 =
        [EndpointAction.submitDelete, EndpointAction.submitRegister] := by
  refine ⟨⟨"alice", "alice2", 7, "0xaaaaaaaaaaaaaaaaaaaaaaaaaaaaaaaaaaaaaaaa",
    "0xs", 100, "0xr", 100⟩, by decide, by decide, by decide, ?_, ?_⟩
  · rfl
  · rfl

/-- C3: on a successful fetch and a positive fid, `getCurrentFnameFromFid`
computes exactly the derivation the spec words describe
(`lookupByIdentifierSpec`), and on the two concrete histories of the claim
it returns none for the released identifier 42 and `b` for the identifier
that re-registered. -/
theorem current_fname_follows_history (fid : Int) (env : FidQueryEnv)
    (hpos : 0 < fid) (hok : respOk env.status = true) :
    (getCurrentFnameFromFid fid env).1 =
      Except.ok (lookupByIdentifierSpec fid env.transfers) ∧
    (getCurrentFnameFromFid 42
      ⟨200, [⟨1, 100, "a", "0xo", 0, 42⟩, ⟨2, 200, "a", "0xo", 42, 0⟩]⟩).1 =
      Except.ok none ∧
    (getCurrentFnameFromFid 42
      ⟨200, [⟨1, 100, "a", "0xo", 0, 42⟩, ⟨2, 300, "b", "0xo", 0, 42⟩]⟩).1 =
      Except.ok (some "b") := by
  refine ⟨?_, rfl, rfl⟩
  have hnn : ¬(fid ≤ 0) := by omega
  unfold getCurrentFnameFromFid lookupByIdentifierSpec
  rw [if_neg hnn]
  simp only [hok, Bool.not_true, Bool.false_eq_true, if_false]
  by_cases he : env.transfers.isEmpty
  · simp [he]
  · simp only [he, Bool.false_eq_true, if_false]
    cases sortByTimestampDesc env.transfers with
    | nil => rfl
    | cons latest rest =>
      dsimp only
      split
      · rfl
      · cases (latest :: rest).find? (fun t => t.toId == fid) <;> rfl

/-- Witness for C3 at fid 1 with an accepting directory response. -/
theorem current_fname_follows_history_witness :
    (0 : Int) < 1 ∧ respOk 200 = true ∧
    (getCurrentFnameFromFid 1 ⟨200, []⟩).1 =
      Except.ok (lookupByIdentifierSpec 1 []) :=
  ⟨by decide, by decide,
   (current_fname_follows_history 1 ⟨200, []⟩ (by decide) (by decide)).1⟩

/-- C4: `isUsernameTaken` queries the directory with the lowercased
handle and, on a successful response, returns true exactly when the
response carried a transfer record with a non-zero `to` field; a 404
yields false, and a present record with `to = 0` never yields true. -/
theorem username_taken_iff (u : String) (env : String → NameLookupResponse) :
    ((env (strToLower u)).status = 404 → isUsernameTaken u env = Except.ok false) ∧
    (respOk (env (strToLower u)).status = true →
      (isUsernameTaken u env = Except.ok true ↔
        ∃ t, (env (strToLower u)).transfer = some t ∧ t.toId ≠ 0)) ∧
    (∀ t, (env (strToLower u)).transfer = some t → t.toId = 0 →
      isUsernameTaken u env ≠ Except.ok true) := by
  refine ⟨?_, ?_, ?_⟩
  · intro h
    unfold isUsernameTaken
    simp [h]
  · intro h
    have h404 : ¬((env (strToLower u)).status = 404) := by
      intro hc
      rw [hc] at h
      exact absurd h (by decide)
    unfold isUsernameTaken
    simp only [h404, if_false, h, Bool.not_true, Bool.false_eq_true, if_false]
    cases htr : (env (strToLower u)).transfer with
    | none => simp [htr]
    | some t => simp [htr, bne_iff_ne]
  · intro t ht h0
    unfold isUsernameTaken
    by_cases h404 : (env (strToLower u)).status = 404
    · simp [h404]
    · by_cases hok : respOk (env (strToLower u)).status
      · simp [h404, hok, ht, h0]
      · simp [h404, hok]

/-- Witness for C4: a 404 response, a successful response carrying a
record with a non-zero `to`, and a successful response carrying a
released record (`to = 0`). -/
theorem username_taken_iff_witness :
    isUsernameTaken "Bob" (fun _ => ⟨404, none⟩) = Except.ok false ∧
    isUsernameTaken "Bob" (fun _ => ⟨200, some ⟨1, 50, "bob", "0xo", 0, 9⟩⟩) =
      Except.ok true ∧
    isUsernameTaken "Bob" (fun _ => ⟨200, some ⟨1, 50, "bob", "0xo", 9, 0⟩⟩) ≠
      Except.ok true :=
  ⟨(username_taken_iff "Bob" (fun _ => ⟨404, none⟩)).1 rfl,
   ((username_taken_iff "Bob" (fun _ => ⟨200, some ⟨1, 50, "bob", "0xo", 0, 9⟩⟩)).2.1
      (by decide)).mpr ⟨⟨1, 50, "bob", "0xo", 0, 9⟩, rfl, by decide⟩,
   (username_taken_iff "Bob" (fun _ => ⟨200, some ⟨1, 50, "bob", "0xo", 9, 0⟩⟩)).2.2
      ⟨1, 50, "bob", "0xo", 9, 0⟩ rfl rfl⟩

/-- A one-element conditional list is empty exactly when its condition
fails. -/
theorem ite_singleton_eq_nil {α : Type} {c : Prop} [Decidable c] {a : α} :
    (if c then [a] else []) = [] ↔ ¬c := by
  by_cases h : c <;> simp [h]

/-- C5: every request body violating the schema (empty currentFname or
newFname, a newFname failing the regex or carrying a boundary hyphen, a
nonpositive fid, an invalid owner address, or a nonpositive timestamp) is
answered with HTTP 400 and the body
`Invalid input: <field>: <message>, ...`, and no directory submission is
performed. -/
theorem invalid_input_rejected_before_network
    (checksumOk : String → Bool) (r : RenameRequest) (env : EndpointEnv)
    (h : r.currentFname.toList.length = 0 ∨ r.newFname.toList.length = 0 ∨
      fnameRegexMatch r.newFname = false ∨ startsWithDash r.newFname = true ∨
      endsWithDash r.newFname = true ∨ r.fid ≤ 0 ∨
      isAddress checksumOk r.owner = false ∨ r.deleteTimestamp ≤ 0 ∨
      r.registerTimestamp ≤ 0) :
    postRename checksumOk r env =
      (ApiResult.badRequest ("Invalid input: " ++
        formatIssues (validateRenameRequest checksumOk r)), []) ∧
    apiStatus (postRename checksumOk r env).1 = 400 := by
  have hne : validateRenameRequest checksumOk r ≠ [] := by
    intro hE
    unfold validateRenameRequest newFnameIssues at hE
    simp only [List.append_eq_nil, ite_singleton_eq_nil] at hE
    rcases h with h | h | h | h | h | h | h | h | h <;> simp_all
  have hie : (validateRenameRequest checksumOk r).isEmpty = false := by
    rcases hv : validateRenameRequest checksumOk r with _ | ⟨a, l⟩
    · exact absurd hv hne
    · rfl
  have hpost : postRename checksumOk r env =
      (ApiResult.badRequest ("Invalid input: " ++
        formatIssues (validateRenameRequest checksumOk r)), []) := by
    unfold postRename
    simp [hie]
  exact ⟨hpost, by rw [hpost]; rfl⟩

/-- Witness for C5: a request with fid 0 is rejected with a 400 and no
submission. -/
theorem invalid_input_rejected_before_network_witness :
    (0 : Int) ≤ 0 ∧
    postRename (fun _ => false)
      ⟨"alice", "bob", 0, "0xaaaaaaaaaaaaaaaaaaaaaaaaaaaaaaaaaaaaaaaa",
        "0xs", 100, "0xr", 101⟩ ⟨⟨200, none⟩, ⟨200, none⟩⟩ =
      (ApiResult.badRequest ("Invalid input: " ++
        formatIssues (validateRenameRequest (fun _ => false)
          ⟨"alice", "bob", 0, "0xaaaaaaaaaaaaaaaaaaaaaaaaaaaaaaaaaaaaaaaa",
            "0xs", 100, "0xr", 101⟩)), []) :=
  ⟨by decide,
   (invalid_input_rejected_before_network (fun _ => false)
      ⟨"alice", "bob", 0, "0xaaaaaaaaaaaaaaaaaaaaaaaaaaaaaaaaaaaaaaaa",
        "0xs", 100, "0xr", 101⟩ ⟨⟨200, none⟩, ⟨200, none⟩⟩
      (Or.inr (Or.inr (Or.inr (Or.inr (Or.inr (Or.inl (by decide)))))))).1⟩

/-- A string matching the fname regex is nonempty. -/
theorem fnameRegexMatch_imp_nonempty (s : String) (h : fnameRegexMatch s = true) :
    1 ≤ s.toList.length := by
  unfold fnameRegexMatch at h
  rcases hl : s.toList with _ | ⟨c, rest⟩
  · rw [hl] at h
    exact absurd h (by decide)
  · simp

/-- C7: the handle validator accepts a string exactly when the spec
predicate does (length 1 to 16, characters in `[a-z0-9-]`, no boundary
hyphen); the endpoint schema rule for `newFname` reports no issue exactly
on the accepted strings; and the examples of the claim behave as stated,
with every 17-character string rejected. -/
theorem fname_validator_iff :
    (∀ s : String, isValidFname s = specValidFname s) ∧
    (∀ s : String, newFnameIssues s = [] ↔ isValidFname s = true) ∧
    (∀ s : String, s.toList.length = 17 → isValidFname s = false) ∧
    isValidFname "vitalik" = true ∧
    isValidFname "-abc" = false ∧
    isValidFname "abc-" = false ∧
    isValidFname "AB3" = false := by
  have hmain : ∀ s : String, isValidFname s = specValidFname s := by
    intro s
    unfold isValidFname specValidFname fnameRegexMatch
    rcases hl : s.toList with _ | ⟨c, rest⟩
    · simp
    · have hSW : startsWithDash s = (c == '-') := by
        unfold startsWithDash
        rw [hl]
      rw [hSW]
      simp only [List.length_cons, List.all_cons]
      have h1 : decide (1 ≤ rest.length + 1) = true := by simp
      have h16 : decide (rest.length + 1 ≤ 16) = decide (rest.length ≤ 15) :=
        decide_eq_decide.mpr (by omega)
      rw [h1, h16]
      cases hc : (c == '-') with
      | false =>
        have hF : isFnameChar c = isLowerAlnum c := by
          unfold isFnameChar
          rw [hc]
          simp
        rw [hF]
        simp [hc, Bool.and_assoc, Bool.and_comm, Bool.and_left_comm]
      | true =>
        have hcd : c = '-' := eq_of_beq hc
        subst hcd
        have hA : isLowerAlnum '-' = false := by decide
        simp [hA, hc]
  refine ⟨hmain, ?_, ?_, by decide, by decide, by decide, by decide⟩
  · intro s
    constructor
    · intro hE
      unfold newFnameIssues at hE
      simp only [List.append_eq_nil, ite_singleton_eq_nil] at hE
      obtain ⟨⟨h1, h2⟩, h3⟩ := hE
      have hr : fnameRegexMatch s = true := by
        cases hb : fnameRegexMatch s
        · rw [hb] at h2
          simp at h2
        · rfl
      have hsd : startsWithDash s = false := by
        cases hb : startsWithDash s
        · rfl
        · rw [hb] at h3
          simp at h3
      have hed : endsWithDash s = false := by
        cases hb : endsWithDash s
        · rfl
        · rw [hb] at h3
          simp at h3
      unfold isValidFname
      rw [hr, hsd, hed]
      rfl
    · intro hV
      unfold isValidFname at hV
      simp only [Bool.and_eq_true, Bool.not_eq_true'] at hV
      obtain ⟨⟨hr, hs⟩, he⟩ := hV
      have hlen := fnameRegexMatch_imp_nonempty s hr
      have hge : ¬(s.toList.length < 1) := by omega
      have hlen2 : 1 ≤ s.length := hlen
      unfold newFnameIssues
      simp [hr, hs, he, hge]
      omega
  · intro s h17
    rw [hmain s]
    unfold specValidFname
    rw [h17]
    rfl

/-- Witness for C7: the equivalence applied at `vitalik` and the
17-character rejection applied at a concrete 17-character string. -/
theorem fname_validator_iff_witness :
    "aaaaaaaaaaaaaaaaa".toList.length = 17 ∧
    isValidFname "aaaaaaaaaaaaaaaaa" = false ∧
    isValidFname "vitalik" = specValidFname "vitalik" :=
  ⟨by decide, fname_validator_iff.2.2.1 "aaaaaaaaaaaaaaaaa" (by decide),
   fname_validator_iff.1 "vitalik"⟩

/-- Appending to a nonempty string yields a nonempty string. -/
theorem strAppendNeEmpty (s t : String) (h : s ≠ "") : s ++ t ≠ "" := by
  intro hc
  apply h
  have hd := congrArg String.data hc
  rw [String.data_append] at hd
  have h0 : s.data ++ t.data = [] := by simpa using hd
  have h1 : s.data = [] := (List.append_eq_nil.mp h0).1
  cases s
  rw [show ("" : String) = ⟨[]⟩ from rfl]
  exact congrArg String.mk h1

/-- The catch handler on an Error without a code field joins the generic
message with the nonempty detail. -/
theorem catchHandlerMessage_none (d : String) (h : d ≠ "") :
    catchHandlerMessage (some d) none =
      "Failed to sign the message." ++ ": " ++ d := by
  unfold catchHandlerMessage
  rw [if_pos h]

/-- The catch handler on an error carrying the code 4001 or
ACTION_REJECTED produces the bare rejection message. -/
theorem catchHandlerMessage_code_rejected (m : Option String) (c : ErrCode)
    (h : c = ErrCode.num 4001 ∨ c = ErrCode.str "ACTION_REJECTED") :
    catchHandlerMessage m (some c) = "Signature request rejected by user." := by
  rcases h with h | h <;> subst h <;> rfl

/-- C8 counterexample: an error Result whose message carries the
rejection substring is rethrown inside the same try block and rewrapped
by the catch handler, so the surfaced message does not begin with
`Signature request rejected by user.`. -/
theorem signature_rejection_not_prefixed :
    generateSignature (some ()) (SignOutcome.errResult "rejected") 5 =
      Except.error
        "Failed to sign the message.: Signature request rejected by user.: rejected" ∧
    List.isPrefixOf "Signature request rejected by user.".toList
      "Failed to sign the message.: Signature request rejected by user.: rejected".toList
      = false := by
  constructor
  · rfl
  · decide

/-- C8 (amended): `generateSignature` throws `Wallet client not provided.`
without a wallet client; an error Result with rejection evidence in its
message yields a message that contains `Signature request rejected by
user.` but is prefixed by the generic `Failed to sign the message.: `
wrapper; an error Result without evidence yields the generic message
doubled around the detail; only a thrown error whose code is 4001 or
ACTION_REJECTED produces a message that is exactly
`Signature request rejected by user.`; and any other thrown Error is
wrapped as `Failed to sign the message.: <detail>`. -/
theorem signature_error_classification (ts : Int) :
    (∀ o : SignOutcome, generateSignature none o ts =
      Except.error "Wallet client not provided.") ∧
    (∀ msg, (strIncludes msg "rejected" || strIncludes msg "4001") = true →
      generateSignature (some ()) (SignOutcome.errResult msg) ts =
        Except.error ("Failed to sign the message." ++ ": " ++
          ("Signature request rejected by user." ++ ": " ++ msg))) ∧
    (∀ msg, (strIncludes msg "rejected" || strIncludes msg "4001") = false →
      generateSignature (some ()) (SignOutcome.errResult msg) ts =
        Except.error ("Failed to sign the message." ++ ": " ++
          ("Failed to sign the message." ++ ": " ++ msg))) ∧
    (∀ (m : Option String) (c : ErrCode),
      (c = ErrCode.num 4001 ∨ c = ErrCode.str "ACTION_REJECTED") →
      generateSignature (some ()) (SignOutcome.threw m (some c)) ts =
        Except.error "Signature request rejected by user.") ∧
    (∀ msg, msg ≠ "" →
      generateSignature (some ()) (SignOutcome.threw (some msg) none) ts =
        Except.error ("Failed to sign the message." ++ ": " ++ msg)) := by
  refine ⟨fun o => rfl, ?_, ?_, ?_, ?_⟩
  · intro msg h
    unfold generateSignature
    simp only [h, if_true]
    rw [catchHandlerMessage_none _ (strAppendNeEmpty _ _ (by decide))]
  · intro msg h
    unfold generateSignature
    simp only [h, Bool.false_eq_true, if_false]
    rw [catchHandlerMessage_none _ (strAppendNeEmpty _ _ (by decide))]
  · intro m c h
    exact congrArg Except.error (catchHandlerMessage_code_rejected m c h)
  · intro msg h
    exact congrArg Except.error (catchHandlerMessage_none msg h)

/-- Witness for C8 (amended) at concrete outcomes: missing wallet,
rejection-evidence message, evidence-free message, code 4001, and a plain
Error. -/
theorem signature_error_classification_witness :
    generateSignature none (SignOutcome.ok "0xs") 5 =
      Except.error "Wallet client not provided." ∧
    generateSignature (some ()) (SignOutcome.errResult "user rejected tx") 5 =
      Except.error ("Failed to sign the message." ++ ": " ++
        ("Signature request rejected by user." ++ ": " ++ "user rejected tx")) ∧
    generateSignature (some ()) (SignOutcome.errResult "boom") 5 =
      Except.error ("Failed to sign the message." ++ ": " ++
        ("Failed to sign the message." ++ ": " ++ "boom")) ∧
    generateSignature (some ()) (SignOutcome.threw (some "denied") (some (ErrCode.num 4001))) 5 =
      Except.error "Signature request rejected by user." ∧
    generateSignature (some ()) (SignOutcome.threw (some "oops") none) 5 =
      Except.error ("Failed to sign the message." ++ ": " ++ "oops") :=
  ⟨(signature_error_classification 5).1 (SignOutcome.ok "0xs"),
   (signature_error_classification 5).2.1 "user rejected tx" (by decide),
   (signature_error_classification 5).2.2.1 "boom" (by decide),
   (signature_error_classification 5).2.2.2.1 (some "denied") (ErrCode.num 4001)
     (Or.inl rfl),
   (signature_error_classification 5).2.2.2.2 "oops" (by decide)⟩

end FnameUpdate
